import Mathlib

/-
Verification development for the CV-analyzer repository.

The definitions below are a shallow embedding of `cv_analyzer.py`:
  - string trimming and JSON extraction mirror `str.strip`, `str.find`,
    `str.rfind` and the slicing in `CVAnalyzer.validate_json_response`;
  - `jsonParse` models `json.loads` on the JSON fragment the program
    exchanges (objects, arrays, strings, integers, booleans, null);
  - `validateJsonResponse`, `createFallbackResponse`,
    `analyzeCvWithOpenai`, `processCv`, `uploadFileToOpenai`,
    `getCvFiles`, `runAnalysis` and the CSV/aggregation functions mirror
    the correspondingly named methods of the script, with the external
    OpenAI endpoints modelled as explicit oracle arguments.
-/

/-- Character constants written via code points so the embedding avoids
brace literals in the source text. -/
def lbrace : Char := Char.ofNat 123

def rbrace : Char := Char.ofNat 125

def dquote : Char := Char.ofNat 34

def bslash : Char := Char.ofNat 92

/-- Whitespace test used by Python `str.strip` and the JSON grammar
(space, tab, newline, carriage return). -/
def isWsChar (c : Char) : Bool :=
  c == ' ' || c == '\t' || c == '\n' || c == '\r'

/-- Drop leading whitespace, as the JSON grammar does between tokens. -/
def skipWs (l : List Char) : List Char := l.dropWhile isWsChar

/-- Model of Python `str.strip`: drop whitespace from both ends. -/
def stripChars (l : List Char) : List Char :=
  ((l.dropWhile isWsChar).reverse.dropWhile isWsChar).reverse

/-- Model of Python `str.strip` at the `String` level. -/
def pyStrip (s : String) : String := String.mk (stripChars s.data)

/-- Model of Python `str.find` restricted to a single character: index of
the first occurrence, `none` standing for the Python result -1. -/
def findChar (c : Char) : List Char → Option Nat
  | [] => none
  | a :: rest => if a == c then some 0 else (findChar c rest).map (· + 1)

/-- The extraction step of `CVAnalyzer.validate_json_response`
(lines 141-148 of `cv_analyzer.py`): `start_idx = text.find(lbrace)`,
`end_idx = text.rfind(rbrace) + 1`, raise when `start_idx == -1`
(the `end_idx == -1` test in the source can never fire, because
`rfind + 1` is at least `0`), else slice `text[start_idx:end_idx]`.
`rfind` is modelled through `findChar` on the reversed list: an
occurrence at reversed index `k` is at index `length - 1 - k`, so
`end_idx = length - k`. -/
def extractList (l : List Char) : Option (List Char) :=
  match findChar lbrace l with
  | none => none
  | some s =>
    let e : Nat :=
      match findChar rbrace l.reverse with
      | none => 0
      | some k => l.length - k
    some ((l.drop s).take (e - s))

/-- String-level wrapper of `extractList`. -/
def extractJson (text : String) : Option String :=
  (extractList text.data).map String.mk

/-- JSON values as produced by `json.loads` on the data this program
exchanges (no floating-point numbers; a reply containing a float fails
this parse, and in the source such a value would in any case be rejected
by the `isinstance(..., int)` check). -/
inductive Json where
  | null
  | bool (b : Bool)
  | int (n : Int)
  | str (s : String)
  | arr (elems : List Json)
  | obj (fields : List (String × Json))

/-- Decode one string-escape character, as `json.loads` does for the
escapes this development exercises. -/
def escChar (e : Char) : Option Char :=
  if e == dquote then some dquote
  else if e == bslash then some bslash
  else if e == '/' then some '/'
  else if e == 'n' then some '\n'
  else if e == 't' then some '\t'
  else if e == 'r' then some '\r'
  else none

/-- Parse the body of a JSON string literal (opening quote already
consumed); returns the decoded characters and the remaining input. The
fuel only bounds the recursion; callers pass one more than the input
length, which the body can never exhaust first. -/
def parseStrChars : Nat → List Char → Option (List Char × List Char)
  | 0, _ => none
  | _, [] => none
  | Nat.succ fuel, c :: rest =>
    if c == dquote then some ([], rest)
    else if c == bslash then
      match rest with
      | [] => none
      | e :: rest2 =>
        match escChar e with
        | none => none
        | some d =>
          match parseStrChars fuel rest2 with
          | none => none
          | some (cs, r) => some (d :: cs, r)
    else
      match parseStrChars fuel rest with
      | none => none
      | some (cs, r) => some (c :: cs, r)

/-- Parse an optionally signed run of decimal digits as a JSON integer. -/
def parseNumber (l : List Char) : Option (Json × List Char) :=
  let (neg, l2) :=
    match l with
    | c :: rest => if c == '-' then (true, rest) else (false, l)
    | [] => (false, l)
  let ds := l2.takeWhile Char.isDigit
  let rest := l2.dropWhile Char.isDigit
  if ds.isEmpty then none
  else
    let n : Nat := ds.foldl (fun acc c => acc * 10 + (c.toNat - 48)) 0
    some (.int (if neg then -(n : Int) else (n : Int)), rest)

mutual

/-- Recursive-descent JSON value parser, fuel-indexed; models
`json.loads` on the fragment described at `Json`. -/
def parseValue : Nat → List Char → Option (Json × List Char)
  | 0, _ => none
  | Nat.succ fuel, l =>
    match l with
    | [] => none
    | c :: rest =>
      if c == dquote then
        match parseStrChars (rest.length + 1) rest with
        | none => none
        | some (cs, r) => some (.str (String.mk cs), r)
      else if c == lbrace then
        match skipWs rest with
        | [] => none
        | c1 :: r1 =>
          if c1 == rbrace then some (.obj [], r1)
          else
            match parseMembers fuel (c1 :: r1) with
            | none => none
            | some (ms, r) => some (.obj ms, r)
      else if c == '[' then
        match skipWs rest with
        | [] => none
        | c1 :: r1 =>
          if c1 == ']' then some (.arr [], r1)
          else
            match parseElems fuel (c1 :: r1) with
            | none => none
            | some (vs, r) => some (.arr vs, r)
      else
        match l with
        | 'n' :: 'u' :: 'l' :: 'l' :: r => some (.null, r)
        | 't' :: 'r' :: 'u' :: 'e' :: r => some (.bool true, r)
        | 'f' :: 'a' :: 'l' :: 's' :: 'e' :: r => some (.bool false, r)
        | _ => parseNumber l

/-- Parse one or more `"key": value` members and the closing brace. -/
def parseMembers : Nat → List Char → Option (List (String × Json) × List Char)
  | 0, _ => none
  | Nat.succ fuel, l =>
    match l with
    | [] => none
    | c :: rest =>
      if c == dquote then
        match parseStrChars (rest.length + 1) rest with
        | none => none
        | some (key, r1) =>
          match skipWs r1 with
          | [] => none
          | c2 :: r2 =>
            if c2 == ':' then
              match parseValue fuel (skipWs r2) with
              | none => none
              | some (v, r3) =>
                match skipWs r3 with
                | [] => none
                | c3 :: r4 =>
                  if c3 == ',' then
                    match parseMembers fuel (skipWs r4) with
                    | none => none
                    | some (ms, r5) => some ((String.mk key, v) :: ms, r5)
                  else if c3 == rbrace then some ([(String.mk key, v)], r4)
                  else none
            else none
      else none

/-- Parse one or more array elements and the closing bracket. -/
def parseElems : Nat → List Char → Option (List Json × List Char)
  | 0, _ => none
  | Nat.succ fuel, l =>
    match parseValue fuel l with
    | none => none
    | some (v, r1) =>
      match skipWs r1 with
      | [] => none
      | c2 :: r2 =>
        if c2 == ',' then
          match parseElems fuel (skipWs r2) with
          | none => none
          | some (vs, r3) => some (v :: vs, r3)
        else if c2 == ']' then some ([v], r2)
        else none

end

/-- Model of `json.loads`: parse a whole document, requiring nothing but
whitespace after the value (Python raises `Extra data` otherwise). -/
def jsonParse (s : String) : Option Json :=
  match parseValue (s.length + 1) (skipWs s.data) with
  | none => none
  | some (v, rest) => if (skipWs rest).isEmpty then some v else none

/-- Python `dict` lookup on the association list `json.loads` would build:
with duplicate keys the later entry wins, so search from the right. -/
def lookupLast (fields : List (String × Json)) (k : String) : Option Json :=
  (fields.reverse.find? (fun p => p.1 == k)).map (fun p => p.2)

/-- The validated analysis payload: the `score`/`summary`/`tags` triple
the scorer returns. Tags stay at the `Json` level because the validator
only checks that `tags` is a list of at least three elements. -/
structure AnalysisResult where
  score : Int
  summary : String
  tags : List Json

/-- Field checks of `CVAnalyzer.validate_json_response` (lines 151-170):
`score` must be an `int` in `[1, 100]`, `summary` a `str` whose stripped
length is at least 400, `tags` a `list` of at least 3 elements; the
checks run in that order and any failure raises `ValueError`. -/
def validateFields (fields : List (String × Json)) : Option AnalysisResult :=
  match lookupLast fields "score" with
  | some (.int n) =>
    if 1 ≤ n ∧ n ≤ 100 then
      match lookupLast fields "summary" with
      | some (.str s) =>
        if 400 ≤ (pyStrip s).length then
          match lookupLast fields "tags" with
          | some (.arr ts) =>
            if 3 ≤ ts.length then some ⟨n, s, ts⟩ else none
          | _ => none
        else none
      | _ => none
    else none
  | _ => none

/-- How `validate_json_response` terminates: `ok` returns the payload;
`valueFault` is a raised `ValueError` (no JSON found, `json.loads`
failure, or a failed field check), which the retry loop catches;
`attrFault` is the `AttributeError` raised by `result.get(...)` when the
parsed document is not a dict — that exception is not in the local
`except` clause, so it escapes and is caught by the generic
`except Exception` of the caller. -/
inductive ValidateResult where
  | ok (r : AnalysisResult)
  | valueFault
  | attrFault

/-- `CVAnalyzer.validate_json_response` (lines 138-173): extract the
brace-delimited substring, `json.loads` it, then check the fields. -/
def validateJsonResponse (text : String) : ValidateResult :=
  match extractJson text with
  | none => .valueFault
  | some sub =>
    match jsonParse sub with
    | none => .valueFault
    | some (.obj fields) =>
      match validateFields fields with
      | some r => .ok r
      | none => .valueFault
    | some _ => .attrFault

/-- `CVAnalyzer.create_fallback_response` (lines 294-304), with the
exact string template of the source. The Python truthiness test on the
error message treats both
`None` and the empty string as falsy, hence the empty-string test. -/
def createFallbackResponse (filename : String) (errorMsg : Option String) : AnalysisResult :=
  { score := 50
  , summary :=
      "Analysis of " ++ filename ++ " could not be completed automatically. " ++
      (match errorMsg with
       | some e => if e = "" then "" else "Error: " ++ e ++ ". "
       | none => "") ++
      "Manual review recommended to assess candidate\x27s qualifications, experience, and fit for the role. " ++
      "Please review the CV directly to evaluate technical skills, work history, education, and overall presentation. " ++
      "Consider scheduling an interview if the candidate meets basic requirements based on manual assessment."
  , tags := [.str "manual_review_needed", .str "analysis_incomplete", .str "requires_human_assessment"] }

/-- One endpoint round-trip, as seen by the retry loop: either the chat
completion returned text content, or the call raised a non-`ValueError`
exception (network failure, endpoint error) carrying message `msg`. -/
inductive AttemptOutcome where
  | reply (content : String)
  | netErr (msg : String)

/-- Observable trace of one `analyze_cv_with_openai` run: the returned
payload, how many endpoint calls were made, and how many `time.sleep`
pauses were taken between retries. -/
structure AnalyzeTrace where
  result : AnalysisResult
  calls : Nat
  sleeps : Nat

/-- Modelled message of the `AttributeError` that escapes
`validate_json_response` when the parsed document is not a dict; the
claims never depend on its text. -/
def attrErrMsg : String := "\x27list\x27 object has no attribute \x27get\x27"

/-- What one loop iteration of `analyze_cv_with_openai` concludes from a
returned content string: the `if not content` emptiness test raises
`ValueError` before validation is attempted. -/
def attemptResult (c : String) : ValidateResult :=
  if c = "" then .valueFault else validateJsonResponse c

/-- Python `', '.join` over the tag list: the join succeeds only when
every element is a string, and raises `TypeError` (here `none`)
otherwise — the validator only checks that `tags` is a list of at least
3 elements, so non-string elements can reach the joins. -/
def joinTags (tags : List Json) : Option String :=
  (tags.mapM (fun t => match t with | Json.str s => some s | _ => none)).map
    (fun ss => String.intercalate ", " ss)

/-- Modelled message of the `TypeError` raised by joining a non-string
tag; in Python the text names the offending index and type, and no claim
depends on it. -/
def typeErrorMsg : String := "expected str instance"

/-- The retry loop of `CVAnalyzer.analyze_cv_with_openai`
(lines 175-246), iterating over the remaining attempt indices of
`range(max_retries)`: a `ValueError` on the last attempt returns the
fallback with no error message; a `ValueError` earlier sleeps and
retries; any other exception returns the fallback carrying the message
immediately. On a validated reply, the progress print at line 228 joins
`result['tags'][:3]` before returning: a non-string among the first
three tags raises `TypeError` there, which the generic
`except Exception` turns into an immediate fallback. -/
def analyzeSteps (o : Nat → AttemptOutcome) (filename : String) :
    List Nat → AnalyzeTrace
  | [] => ⟨createFallbackResponse filename none, 0, 0⟩
  | i :: rest =>
    match o i with
    | .netErr m => ⟨createFallbackResponse filename (some m), 1, 0⟩
    | .reply c =>
      match attemptResult c with
      | .ok r =>
        match joinTags (r.tags.take 3) with
        | some _ => ⟨r, 1, 0⟩
        | none => ⟨createFallbackResponse filename (some typeErrorMsg), 1, 0⟩
      | .attrFault => ⟨createFallbackResponse filename (some attrErrMsg), 1, 0⟩
      | .valueFault =>
        match rest with
        | [] => ⟨createFallbackResponse filename none, 1, 0⟩
        | j :: rest2 =>
          let t := analyzeSteps o filename (j :: rest2)
          ⟨t.result, t.calls + 1, t.sleeps + 1⟩

/-- Retry bound of the scorer: `max_retries = 2` (line 177). -/
def max_retries : Nat := 2

/-- `CVAnalyzer.analyze_cv_with_openai`, with the endpoint modelled as
the oracle `o` giving the outcome of each attempt. Total by
construction: every path returns an `AnalysisResult`. -/
def analyzeCvWithOpenai (o : Nat → AttemptOutcome) (filename : String) : AnalyzeTrace :=
  analyzeSteps o filename (List.range max_retries)

/-- One row of the final report, as built by `process_cv`
(lines 350-370). -/
structure ResultRecord where
  filename : String
  score : Int
  summary : String
  tags : String
  status : String
  file_id : Option String
deriving DecidableEq

/-- `CVAnalyzer.process_cv` (lines 335-370): upload, analyze, and wrap
into a `ResultRecord`. Two exceptions can reach the `except` branch that
builds an error record from the fallback: an upload returning no id
raises `ValueError` at line 345, and the full-list
`', '.join(result['tags'])` at line 354 raises `TypeError` when a
validated reply carries a non-string tag (the validator never checks
element types). `analyze_cv_with_openai` itself never raises. In the
error branch the fallback tags are the three string literals, so their
join always succeeds and the `getD` default is unreachable. -/
def processCv (uploadResult : Option String) (o : Nat → AttemptOutcome)
    (filename : String) : ResultRecord :=
  match uploadResult with
  | some fid =>
    let r := (analyzeCvWithOpenai o filename).result
    match joinTags r.tags with
    | some ts =>
      { filename := filename, score := r.score, summary := r.summary
      , tags := ts, status := "success", file_id := some fid }
    | none =>
      let fb := createFallbackResponse filename (some typeErrorMsg)
      { filename := filename, score := fb.score, summary := fb.summary
      , tags := (joinTags fb.tags).getD "", status := "error", file_id := none }
  | none =>
    let fb := createFallbackResponse filename (some "Failed to upload file to OpenAI")
    { filename := filename, score := fb.score, summary := fb.summary
    , tags := (joinTags fb.tags).getD "", status := "error", file_id := none }

/-- Observable trace of `upload_file_to_openai`: the returned id (or
`None` after a caught exception), the cache map afterwards, how many
remote `files.create` calls were made, and the snapshots written to disk
by `save_cache`. -/
structure UploadTrace where
  file_id : Option String
  cache : List (String × String)
  remoteCalls : Nat
  savedToDisk : List (List (String × String))
deriving DecidableEq

/-- `CVAnalyzer.upload_file_to_openai` (lines 99-136), the cache as an
association map keyed by filename and the remote endpoint modelled by
`remote` (`some id` on success, `none` when `files.create` raises). The
cache-hit test runs first; the size checks run only on a miss; an
over- or under-sized file raises `ValueError`, caught by the local
handler which returns `None`; on a successful upload the new entry
is stored and the full map written to disk at once. -/
def uploadFileToOpenai (cache : List (String × String)) (filename : String)
    (size : Nat) (remote : Option String) : UploadTrace :=
  match cache.lookup filename with
  | some fid => ⟨some fid, cache, 0, []⟩
  | none =>
    if 512 * 1024 * 1024 < size then ⟨none, cache, 0, []⟩
    else if size < 100 then ⟨none, cache, 0, []⟩
    else
      match remote with
      | none => ⟨none, cache, 1, []⟩
      | some fid => ⟨some fid, (filename, fid) :: cache, 1, [(filename, fid) :: cache]⟩

/-- Stable descending insertion by score: the new element goes in front
of the first current element whose score does not exceed it, so elements
with equal scores keep their original relative order. This is the
observable behavior of the stable Python `list.sort(key=score,
reverse=True)` at line 458 of `cv_analyzer.py`. -/
def insertByScoreDesc (x : ResultRecord) : List ResultRecord → List ResultRecord
  | [] => [x]
  | y :: ys => if y.score ≤ x.score then x :: y :: ys else y :: insertByScoreDesc x ys

/-- Stable sort of the success records by score, descending. -/
def sortByScoreDesc : List ResultRecord → List ResultRecord
  | [] => []
  | x :: xs => insertByScoreDesc x (sortByScoreDesc xs)

/-- The aggregation step of `CVAnalyzer.run_analysis` (lines 455-460):
partition by status, sort the successes by descending score, and append
the failures in their original order. -/
def aggregateResults (results : List ResultRecord) : List ResultRecord :=
  sortByScoreDesc (results.filter (fun r => r.status == "success")) ++
    results.filter (fun r => r.status == "error")

/-- The fixed CSV column order of `CVAnalyzer.save_to_csv` (line 378). -/
def csvFieldnames : List String := ["filename", "score", "summary", "tags", "status"]

/-- One CSV data row, fields in the fixed column order (lines 381-387). -/
def csvRow (r : ResultRecord) : List String :=
  [r.filename, toString r.score, r.summary, r.tags, r.status]

/-- `CVAnalyzer.save_to_csv` as the grid of cells it writes: the header
row followed by one row per record, in the order given. -/
def saveToCsv (results : List ResultRecord) : List (List String) :=
  csvFieldnames :: results.map csvRow

/-- Python `pathlib.PurePath.suffix` on a plain file name: the text from
the last dot onward, empty when there is no dot, the dot is the first
character, or the dot is the last character (CPython requires
`0 < i < len(name) - 1` for `i = name.rfind('.')`). -/
def pathSuffix (name : String) : String :=
  let l := name.data
  match findChar '.' l.reverse with
  | none => ""
  | some k =>
    let i := l.length - 1 - k
    if 0 < i ∧ i + 1 < l.length then String.mk (l.drop i) else ""

/-- Model of `str.lower` character by character (the extensions involved
are ASCII). -/
def lowerString (s : String) : String := String.mk (s.data.map Char.toLower)

/-- The eligibility test of `CVAnalyzer.get_cv_files` (lines 325-329):
extension, lowercased, in `{.pdf, .docx}`. -/
def isSupportedCv (name : String) : Bool :=
  lowerString (pathSuffix name) == ".pdf" || lowerString (pathSuffix name) == ".docx"

/-- Stable ascending insertion for file names. -/
def insertStrAsc (x : String) : List String → List String
  | [] => [x]
  | y :: ys => if x ≤ y then x :: y :: ys else y :: insertStrAsc x ys

/-- Lexicographic sort of file names, modelling `sorted(files)` at
line 333. -/
def sortStrAsc : List String → List String
  | [] => []
  | x :: xs => insertStrAsc x (sortStrAsc xs)

/-- `CVAnalyzer.get_cv_files` (lines 322-333): keep the directory
entries that are supported resume files and sort them by name. The
entries are taken to be the names of the regular files in the uploads
folder. -/
def getCvFiles (entries : List String) : List String :=
  sortStrAsc (entries.filter isSupportedCv)

/-- The configuration a run starts from: whether `job.txt` exists, its
text, and the names of the files in the uploads folder. -/
structure RunEnv where
  jobFileExists : Bool
  jobText : String
  uploadEntries : List String

/-- How far `run_analysis` gets before its main loop: `configExit c` is
a `sys.exit(c)` raised inside `load_job_description` (the `SystemExit`
escapes the `except Exception` of `main` and ends the process with code `c`);
`noFilesReturn` is the plain `return` taken when `get_cv_files` comes
back empty (line 426); `ran n` says the batch loop ran over `n` files. -/
inductive RunOutcome where
  | configExit (code : Nat)
  | noFilesReturn
  | ran (count : Nat)
deriving DecidableEq

/-- The control-flow prefix of `CVAnalyzer.run_analysis` (lines 407-433):
load the job description (missing file or a stripped length under 100
characters calls `exit(1)`), list the resume files, return early when
there are none, and otherwise process at most 200 of them. -/
def runAnalysis (env : RunEnv) : RunOutcome :=
  if env.jobFileExists = false then .configExit 1
  else if (pyStrip env.jobText).length < 100 then .configExit 1
  else
    let cvFiles := getCvFiles env.uploadEntries
    if cvFiles.isEmpty then .noFilesReturn
    else .ran (min cvFiles.length 200)

/-- The process exit code produced by `main` (lines 513-527): a
`SystemExit` from the configuration checks carries its own code; every
other completion of `run_analysis` reaches `return 0`. -/
def mainExitCode (env : RunEnv) : Nat :=
  match runAnalysis env with
  | .configExit c => c
  | _ => 0

/-- The composed extract-then-parse stage the scorer applies to a model
reply before field validation. -/
def parseReply (text : String) : Option Json :=
  (extractJson text).bind jsonParse

/-- An attempt outcome that the retry loop treats as a validation fault:
a returned reply whose content is empty or fails
`validate_json_response` with a `ValueError`. An endpoint exception is
never a validation fault. -/
def validationFault : AttemptOutcome → Prop
  | .reply c => attemptResult c = .valueFault
  | .netErr _ => False

theorem length_dropWhile_le (p : Char → Bool) (l : List Char) :
    (l.dropWhile p).length ≤ l.length := by
  induction l with
  | nil => simp [List.dropWhile]
  | cons a l ih =>
    by_cases h : p a = true
    · simp [List.dropWhile, h]
      exact Nat.le_succ_of_le ih
    · simp [List.dropWhile, h]

theorem pyStrip_length_le (s : String) : (pyStrip s).length ≤ s.length := by
  show (stripChars s.data).length ≤ s.data.length
  unfold stripChars
  rw [List.length_reverse]
  calc ((s.data.dropWhile isWsChar).reverse.dropWhile isWsChar).length
      ≤ (s.data.dropWhile isWsChar).reverse.length :=
        length_dropWhile_le _ _
    _ = (s.data.dropWhile isWsChar).length := List.length_reverse _
    _ ≤ s.data.length := length_dropWhile_le _ _

theorem insertByScoreDesc_perm (x : ResultRecord) (l : List ResultRecord) :
    (insertByScoreDesc x l).Perm (x :: l) := by
  induction l with
  | nil => simp [insertByScoreDesc]
  | cons y ys ih =>
    by_cases h : y.score ≤ x.score
    · simp [insertByScoreDesc, h]
    · simp only [insertByScoreDesc, if_neg h]
      exact (List.Perm.cons y ih).trans (List.Perm.swap x y ys)

theorem sortByScoreDesc_perm (l : List ResultRecord) :
    (sortByScoreDesc l).Perm l := by
  induction l with
  | nil => simp [sortByScoreDesc]
  | cons x xs ih =>
    exact (insertByScoreDesc_perm x (sortByScoreDesc xs)).trans (List.Perm.cons x ih)

theorem pairwise_insertByScoreDesc {x : ResultRecord} {l : List ResultRecord}
    (hl : l.Pairwise (fun a b => b.score ≤ a.score)) :
    (insertByScoreDesc x l).Pairwise (fun a b => b.score ≤ a.score) := by
  induction l with
  | nil => simp [insertByScoreDesc]
  | cons y ys ih =>
    rcases List.pairwise_cons.mp hl with ⟨hy, hys⟩
    by_cases h : y.score ≤ x.score
    · simp only [insertByScoreDesc, if_pos h]
      refine List.pairwise_cons.mpr ⟨?_, hl⟩
      intro b hb
      rcases List.mem_cons.mp hb with rfl | hb
      · exact h
      · exact le_trans (hy b hb) h
    · simp only [insertByScoreDesc, if_neg h]
      refine List.pairwise_cons.mpr ⟨?_, ih hys⟩
      intro b hb
      rcases List.mem_cons.mp ((insertByScoreDesc_perm x ys).mem_iff.mp hb) with rfl | hb
      · exact le_of_lt (lt_of_not_le h)
      · exact hy b hb

theorem sortByScoreDesc_pairwise (l : List ResultRecord) :
    (sortByScoreDesc l).Pairwise (fun a b => b.score ≤ a.score) := by
  induction l with
  | nil => simp [sortByScoreDesc]
  | cons x xs ih => exact pairwise_insertByScoreDesc ih

theorem filter_insertByScoreDesc (x : ResultRecord) (l : List ResultRecord) (s : Int) :
    (insertByScoreDesc x l).filter (fun r => r.score == s) =
      if x.score == s then x :: l.filter (fun r => r.score == s)
      else l.filter (fun r => r.score == s) := by
  induction l with
  | nil => simp [insertByScoreDesc, List.filter_cons]
  | cons y ys ih =>
    by_cases h : y.score ≤ x.score
    · simp only [insertByScoreDesc, if_pos h, List.filter_cons]
    · simp only [insertByScoreDesc, if_neg h, List.filter_cons, ih]
      by_cases hx : (x.score == s) = true
      · have hxs : x.score = s := beq_iff_eq.mp hx
        have hy : (y.score == s) = false := by
          rw [beq_eq_false_iff_ne]
          intro hys
          exact h (by rw [hxs, hys])
        simp [hx, hy, List.filter_cons]
      · by_cases hy : (y.score == s) = true
        · simp [hx, hy, List.filter_cons]
        · simp [hx, hy, List.filter_cons]

theorem filter_sortByScoreDesc (l : List ResultRecord) (s : Int) :
    (sortByScoreDesc l).filter (fun r => r.score == s) =
      l.filter (fun r => r.score == s) := by
  induction l with
  | nil => simp [sortByScoreDesc]
  | cons x xs ih =>
    rw [sortByScoreDesc, filter_insertByScoreDesc, List.filter_cons, ih]

theorem findChar_eq_none_iff (c : Char) (l : List Char) :
    findChar c l = none ↔ c ∉ l := by
  induction l with
  | nil => simp [findChar]
  | cons a rest ih =>
    by_cases h : (a == c) = true
    · have : a = c := beq_iff_eq.mp h
      subst this
      simp [findChar, h]
    · have hne : ¬ a = c := by
        intro hac
        exact h (beq_iff_eq.mpr hac)
      simp [findChar, h, Option.map_eq_none', ih, hne, Ne.symm hne]

theorem findChar_isSome_of_mem {c : Char} {l : List Char} (h : c ∈ l) :
    (findChar c l).isSome := by
  cases hf : findChar c l with
  | none => exact absurd h ((findChar_eq_none_iff c l).mp hf)
  | some i => rfl

theorem findChar_lt_length {c : Char} {l : List Char} {i : Nat}
    (h : findChar c l = some i) : i < l.length := by
  induction l generalizing i with
  | nil => simp [findChar] at h
  | cons a rest ih =>
    by_cases hac : a == c
    · rw [findChar, if_pos hac] at h
      cases h
      simp
    · rw [findChar, if_neg hac] at h
      cases hf : findChar c rest with
      | none => rw [hf] at h; simp at h
      | some j =>
        rw [hf] at h
        simp only [Option.map_some'] at h
        cases h
        have := ih hf
        simp
        omega

theorem findChar_append_none {c : Char} {A : List Char} (B : List Char)
    (h : findChar c A = none) :
    findChar c (A ++ B) = (findChar c B).map (fun i => A.length + i) := by
  induction A with
  | nil =>
    simp only [List.nil_append, List.length_nil]
    cases hB : findChar c B <;> simp
  | cons a A' ih =>
    by_cases hac : a == c
    · rw [findChar, if_pos hac] at h
      simp at h
    · rw [findChar, if_neg hac] at h
      rw [Option.map_eq_none'] at h
      rw [List.cons_append, findChar, if_neg hac, ih h]
      cases hB : findChar c B
      · simp
      · simp
        omega

theorem findChar_append_some {c : Char} {A : List Char} (B : List Char) {i : Nat}
    (h : findChar c A = some i) :
    findChar c (A ++ B) = some i := by
  induction A generalizing i with
  | nil => simp [findChar] at h
  | cons a A' ih =>
    by_cases hac : a == c
    · rw [findChar, if_pos hac] at h
      cases h
      rw [List.cons_append, findChar, if_pos hac]
    · rw [findChar, if_neg hac] at h
      cases hf : findChar c A' with
      | none => rw [hf] at h; simp at h
      | some j =>
        rw [hf] at h
        simp only [Option.map_some'] at h
        cases h
        rw [List.cons_append, findChar, if_neg hac, ih hf]
        rfl

/-- Surrounding a brace-containing body with prose that has no opening
brace before it and no closing brace after it leaves the extracted
substring unchanged. -/
theorem extractList_embed {A B C : List Char}
    (hA : lbrace ∉ A) (hC : rbrace ∉ C)
    (hBl : lbrace ∈ B) (hBr : rbrace ∈ B) :
    extractList (A ++ B ++ C) = extractList B := by
  obtain ⟨s, hs⟩ := Option.isSome_iff_exists.mp (findChar_isSome_of_mem hBl)
  obtain ⟨k, hk⟩ :=
    Option.isSome_iff_exists.mp (findChar_isSome_of_mem (List.mem_reverse.mpr hBr))
  have hsB : s < B.length := findChar_lt_length hs
  have hkB : k < B.length := by
    have := findChar_lt_length hk
    rwa [List.length_reverse] at this
  have hAnone : findChar lbrace A = none := (findChar_eq_none_iff _ _).mpr hA
  have hCnone : findChar rbrace C.reverse = none :=
    (findChar_eq_none_iff _ _).mpr (fun hmem => hC (List.mem_reverse.mp hmem))
  -- first lbrace of the combined text
  have hfind : findChar lbrace (A ++ B ++ C) = some (A.length + s) := by
    rw [List.append_assoc, findChar_append_none _ hAnone,
      findChar_append_some _ hs]
    rfl
  -- last rbrace of the combined text, via the reversed list
  have hrev : (A ++ B ++ C).reverse = C.reverse ++ (B.reverse ++ A.reverse) := by
    simp [List.reverse_append]
  have hrfind : findChar rbrace (A ++ B ++ C).reverse = some (C.length + k) := by
    rw [hrev, findChar_append_none _ hCnone, findChar_append_some _ hk]
    simp
  have hdrop : (A ++ B ++ C).drop (A.length + s) = B.drop s ++ C := by
    rw [List.append_assoc, List.drop_append_eq_append_drop,
      List.drop_eq_nil_of_le (by omega), List.nil_append]
    have h1 : A.length + s - A.length = s := by omega
    have h2 : s - B.length = 0 := by omega
    rw [h1, List.drop_append_eq_append_drop, h2, List.drop_zero]
  simp only [extractList, hfind, hrfind, hs, hk, hdrop]
  have hE : (A ++ B ++ C).length - (C.length + k) - (A.length + s) =
      B.length - k - s := by
    simp only [List.length_append]
    omega
  rw [hE, List.take_append_eq_append_take]
  have hzero : B.length - k - s - (B.drop s).length = 0 := by
    rw [List.length_drop]
    omega
  rw [hzero, List.take_zero, List.append_nil]

/-- String-level corollary of `extractList_embed`. -/
theorem extractJson_embed (pre j post : String)
    (hpre : lbrace ∉ pre.data) (hpost : rbrace ∉ post.data)
    (hjl : lbrace ∈ j.data) (hjr : rbrace ∈ j.data) :
    extractJson (pre ++ j ++ post) = extractJson j := by
  unfold extractJson
  rw [show (pre ++ j ++ post).data = pre.data ++ j.data ++ post.data by
    rw [String.data_append, String.data_append]]
  rw [extractList_embed hpre hpost hjl hjr]

theorem joinTags_fallback (fn : String) (e : Option String) :
    joinTags (createFallbackResponse fn e).tags =
      some "manual_review_needed, analysis_incomplete, requires_human_assessment" :=
  rfl

theorem analyze_both_faults (o : Nat → AttemptOutcome) (fn : String)
    (hf0 : validationFault (o 0)) (hf1 : validationFault (o 1)) :
    analyzeCvWithOpenai o fn = ⟨createFallbackResponse fn none, 2, 1⟩ := by
  have hA : analyzeCvWithOpenai o fn = analyzeSteps o fn [0, 1] := rfl
  rw [hA]
  cases h0 : o 0 with
  | netErr m0 => rw [h0] at hf0; exact absurd hf0 (by simp [validationFault])
  | reply c =>
    rw [h0] at hf0
    have hv : attemptResult c = .valueFault := hf0
    cases h1 : o 1 with
    | netErr m1 => rw [h1] at hf1; exact absurd hf1 (by simp [validationFault])
    | reply c1 =>
      rw [h1] at hf1
      have hv1 : attemptResult c1 = .valueFault := hf1
      simp [analyzeSteps, h0, hv, h1, hv1]

/-- C1 (counterexample): a run whose scoring terminates in the FALLBACK
state — both attempts return a reply with no parsable JSON, so retries
exhaust and `analyze_cv_with_openai` returns the fallback record — still
produces a `ResultRecord` with `status = success`, because the fallback
tags join cleanly and `process_cv` reaches its success branch whenever
the upload succeeded and the tags join does not raise. This refutes the
claim that a FALLBACK-terminating scoring yields `status = error`. -/
theorem c1_fallback_marked_success_cex :
    (analyzeCvWithOpenai (fun _ => .reply "The analysis failed.") "resume.pdf").result
        = createFallbackResponse "resume.pdf" none ∧
    (processCv (some "file-abc123") (fun _ => .reply "The analysis failed.")
        "resume.pdf").status = "success" :=
  ⟨rfl, by decide⟩

/-- C1 (amended): how `process_cv` assigns `status`. (a) An upload
failure yields the error record built from the upload-failure fallback.
(b) When the upload succeeds and the full tags join of the analysis
payload succeeds, the record is a success record carrying that payload.
(c) When the upload succeeds but the payload carries a non-string tag,
the full-list join at line 354 raises `TypeError` and the record is an
error record built from the fallback — despite the successful upload.
(d) In particular a scoring that exhausted its validation retries in the
FALLBACK state is still recorded with `status = success` and the
fallback score 50. -/
theorem c1_record_status_cases (up : Option String)
    (o : Nat → AttemptOutcome) (fn : String) :
    (up = none →
      processCv up o fn =
        { filename := fn
        , score := 50
        , summary := (createFallbackResponse fn
            (some "Failed to upload file to OpenAI")).summary
        , tags := "manual_review_needed, analysis_incomplete, requires_human_assessment"
        , status := "error"
        , file_id := none }) ∧
    (∀ fid ts, up = some fid →
      joinTags (analyzeCvWithOpenai o fn).result.tags = some ts →
      processCv up o fn =
        { filename := fn
        , score := (analyzeCvWithOpenai o fn).result.score
        , summary := (analyzeCvWithOpenai o fn).result.summary
        , tags := ts
        , status := "success"
        , file_id := some fid }) ∧
    (∀ fid, up = some fid →
      joinTags (analyzeCvWithOpenai o fn).result.tags = none →
      processCv up o fn =
        { filename := fn
        , score := 50
        , summary := (createFallbackResponse fn (some typeErrorMsg)).summary
        , tags := "manual_review_needed, analysis_incomplete, requires_human_assessment"
        , status := "error"
        , file_id := none }) ∧
    (∀ fid, up = some fid → validationFault (o 0) → validationFault (o 1) →
      (processCv up o fn).status = "success" ∧
      (processCv up o fn).score = 50) := by
  refine ⟨?_, ?_, ?_, ?_⟩
  · intro h
    subst h
    rfl
  · intro fid ts h hj
    subst h
    simp [processCv, hj]
  · intro fid h hj
    subst h
    simp [processCv, hj]
    exact ⟨rfl, by rw [joinTags_fallback]; rfl⟩
  · intro fid h hf0 hf1
    subst h
    have hA := analyze_both_faults o fn hf0 hf1
    constructor
    · simp [processCv, hA, joinTags_fallback]
    · simp only [processCv, hA, joinTags_fallback]
      rfl

set_option maxRecDepth 10000 in
/-- C1 (witness for the amended theorem), covering three branches: a
FALLBACK-terminating scoring with a successful upload recorded as
success; an upload failure recorded as the error record; and a validated
reply whose fourth tag is the integer 1 — it passes validation and the
first-three-tags print, then the full join raises, producing a
`status = error` record despite the successful upload. -/
theorem c1_record_status_cases_witness :
    (processCv (some "fid-7") (fun _ => .reply "no json") "cv2.pdf").status
        = "success" ∧
    processCv none (fun _ => .reply "no json") "cv2.pdf" =
      { filename := "cv2.pdf"
      , score := 50
      , summary := (createFallbackResponse "cv2.pdf"
          (some "Failed to upload file to OpenAI")).summary
      , tags := "manual_review_needed, analysis_incomplete, requires_human_assessment"
      , status := "error"
      , file_id := none } ∧
    (processCv (some "fid-8")
        (fun _ => .reply ("\x7b\"score\": 70, \"summary\": \"" ++
          String.mk (List.replicate 400 'a') ++
          "\", \"tags\": [\"x\", \"y\", \"z\", 1]\x7d"))
        "cv3.pdf").status = "error" := by
  have h1 := c1_record_status_cases (some "fid-7") (fun _ => .reply "no json") "cv2.pdf"
  have h2 := c1_record_status_cases none (fun _ => .reply "no json") "cv2.pdf"
  have h3 := c1_record_status_cases (some "fid-8")
    (fun _ => .reply ("\x7b\"score\": 70, \"summary\": \"" ++
      String.mk (List.replicate 400 'a') ++
      "\", \"tags\": [\"x\", \"y\", \"z\", 1]\x7d")) "cv3.pdf"
  refine ⟨(h1.2.2.2 "fid-7" rfl rfl rfl).1, h2.1 rfl, ?_⟩
  rw [h3.2.2.1 "fid-8" rfl (by decide)]

/-- C6: cache behavior of `upload_file_to_openai`. On a hit the cached
id is returned with no remote call and no disk write; the outcome of a
hit is independent of the current size of the file and of the remote
endpoint (same-named files are treated as identical); on a miss within
the size bounds a successful upload returns the new id, stores it keyed
by filename, and immediately persists the full map to disk. -/
theorem c6_upload_cache_contract (cache : List (String × String)) (fn : String)
    (size size' : Nat) (remote remote' : Option String) (fid : String) :
    (cache.lookup fn = some fid →
      uploadFileToOpenai cache fn size remote = ⟨some fid, cache, 0, []⟩) ∧
    (cache.lookup fn = some fid →
      uploadFileToOpenai cache fn size remote =
        uploadFileToOpenai cache fn size' remote') ∧
    (cache.lookup fn = none → 100 ≤ size → size ≤ 512 * 1024 * 1024 →
      uploadFileToOpenai cache fn size (some fid) =
        ⟨some fid, (fn, fid) :: cache, 1, [(fn, fid) :: cache]⟩ ∧
      ((fn, fid) :: cache).lookup fn = some fid) := by
  refine ⟨?_, ?_, ?_⟩
  · intro h
    simp [uploadFileToOpenai, h]
  · intro h
    simp [uploadFileToOpenai, h]
  · intro h h1 h2
    constructor
    · simp [uploadFileToOpenai, h, Nat.not_lt.mpr h1, Nat.not_lt.mpr h2]
    · simp [List.lookup]

/-- C6 (witness): a concrete hit reuses the cached id with zero remote
calls, and a concrete in-bounds miss uploads, stores and persists. -/
theorem c6_upload_cache_contract_witness :
    uploadFileToOpenai [("a.pdf", "f0")] "a.pdf" 0 none =
      ⟨some "f0", [("a.pdf", "f0")], 0, []⟩ ∧
    uploadFileToOpenai [] "b.pdf" 150 (some "f9") =
      ⟨some "f9", [("b.pdf", "f9")], 1, [[("b.pdf", "f9")]]⟩ := by
  have h1 := c6_upload_cache_contract [("a.pdf", "f0")] "a.pdf" 0 0 none none "f0"
  have h2 := c6_upload_cache_contract [] "b.pdf" 150 150 (some "f9") none "f9"
  exact ⟨h1.1 rfl, (h2.2.2 rfl (by decide) (by decide)).1⟩

/-- C7 (counterexample): a file of exactly 100 bytes is uploaded and
receives a handle — the source raises only when `file_size < 100`, so
the claimed strict bound `size > 100` does not hold on the code. -/
theorem c7_hundred_byte_file_uploaded_cex :
    uploadFileToOpenai [] "cv.pdf" 100 (some "file-1") =
      ⟨some "file-1", [("cv.pdf", "file-1")], 1, [[("cv.pdf", "file-1")]]⟩ :=
  rfl

/-- C7 (amended): on a cache miss the remote upload is attempted exactly
when `100 ≤ size ≤ 512 MiB` (the lower bound is inclusive: a 100-byte
file is uploaded); outside these bounds no remote call is made and no
handle is returned. -/
theorem c7_size_gate_amended (cache : List (String × String)) (fn : String)
    (size : Nat) (remote : Option String) (h : cache.lookup fn = none) :
    ((uploadFileToOpenai cache fn size remote).remoteCalls = 1 ↔
      100 ≤ size ∧ size ≤ 512 * 1024 * 1024) ∧
    (size < 100 ∨ 512 * 1024 * 1024 < size →
      uploadFileToOpenai cache fn size remote = ⟨none, cache, 0, []⟩) := by
  by_cases hbig : 512 * 1024 * 1024 < size
  · refine ⟨?_, ?_⟩
    · simp only [uploadFileToOpenai, h, if_pos hbig]
      constructor
      · intro h1
        cases h1
      · intro h1
        omega
    · intro _
      simp [uploadFileToOpenai, h, hbig]
  · by_cases hsmall : size < 100
    · refine ⟨?_, ?_⟩
      · simp only [uploadFileToOpenai, h, if_neg hbig, if_pos hsmall]
        constructor
        · intro h1
          cases h1
        · intro h1
          omega
      · intro _
        simp [uploadFileToOpenai, h, hbig, hsmall]
    · refine ⟨?_, ?_⟩
      · cases remote with
        | none =>
          simp only [uploadFileToOpenai, h, if_neg hbig, if_neg hsmall]
          exact ⟨fun _ => ⟨by omega, by omega⟩, fun _ => trivial⟩
        | some fid =>
          simp only [uploadFileToOpenai, h, if_neg hbig, if_neg hsmall]
          exact ⟨fun _ => ⟨by omega, by omega⟩, fun _ => trivial⟩
      · intro hout
        rcases hout with hout | hout
        · exact absurd hout hsmall
        · exact absurd hout hbig

/-- C7 (witness for the amended theorem): a 99-byte file is rejected
without a remote call. -/
theorem c7_size_gate_amended_witness :
    uploadFileToOpenai [] "tiny.pdf" 99 (some "f2") = ⟨none, [], 0, []⟩ :=
  (c7_size_gate_amended [] "tiny.pdf" 99 (some "f2") rfl).2 (Or.inl (by decide))

/-- C10: on a cache hit `upload_file_to_openai` returns the cached
handle for any current file size whatsoever — the size validation runs
only on the cache-miss path, so even a 0-byte or over-512-MiB file gets
a handle when its name is cached. -/
theorem c10_cache_hit_skips_size_check (cache : List (String × String))
    (fn fid : String) (h : cache.lookup fn = some fid) :
    ∀ size remote, uploadFileToOpenai cache fn size remote = ⟨some fid, cache, 0, []⟩ := by
  intro size remote
  simp [uploadFileToOpenai, h]

/-- C10 (witness): a cached name with a 0-byte file and with a 600-MiB
file both return the cached handle without any size check or upload. -/
theorem c10_cache_hit_skips_size_check_witness :
    uploadFileToOpenai [("cv.pdf", "cached-1")] "cv.pdf" 0 none =
      ⟨some "cached-1", [("cv.pdf", "cached-1")], 0, []⟩ ∧
    uploadFileToOpenai [("cv.pdf", "cached-1")] "cv.pdf" (600 * 1024 * 1024) none =
      ⟨some "cached-1", [("cv.pdf", "cached-1")], 0, []⟩ := by
  have h := c10_cache_hit_skips_size_check [("cv.pdf", "cached-1")] "cv.pdf" "cached-1" rfl
  exact ⟨h 0 none, h (600 * 1024 * 1024) none⟩

/-- C9 (counterexample): with a valid job description and an uploads
folder with no eligible files, `run_analysis` takes the early `return`
(before any processing) and `main` returns 0 — the process exit code is
zero, not the non-zero signal the claim requires. -/
theorem c9_empty_corpus_exit_zero_cex :
    runAnalysis ⟨true, String.mk (List.replicate 120 'x'), []⟩ = .noFilesReturn ∧
    mainExitCode ⟨true, String.mk (List.replicate 120 'x'), []⟩ = 0 :=
  ⟨rfl, rfl⟩

/-- C9 (amended): an empty corpus is reported and stops the run before
any processing, but through a plain `return` — the process then exits
with code 0, unlike the missing-job-description checks which exit with
code 1. -/
theorem c9_empty_corpus_amended (env : RunEnv) (h1 : env.jobFileExists = true)
    (h2 : 100 ≤ (pyStrip env.jobText).length)
    (h3 : getCvFiles env.uploadEntries = []) :
    runAnalysis env = .noFilesReturn ∧ mainExitCode env = 0 := by
  have hr : runAnalysis env = .noFilesReturn := by
    simp [runAnalysis, h1, h3, Nat.not_lt.mpr h2]
  exact ⟨hr, by simp [mainExitCode, hr]⟩

set_option maxRecDepth 4000 in
/-- C9 (witness for the amended theorem). -/
theorem c9_empty_corpus_amended_witness :
    runAnalysis ⟨true, String.mk (List.replicate 150 'j'), ["notes.txt"]⟩ =
        .noFilesReturn ∧
    mainExitCode ⟨true, String.mk (List.replicate 150 'j'), ["notes.txt"]⟩ = 0 :=
  c9_empty_corpus_amended ⟨true, String.mk (List.replicate 150 'j'), ["notes.txt"]⟩
    rfl (by decide) (by decide)

/-- C2: the retry loop of the scorer makes at most 2 endpoint calls and at
most one inter-attempt sleep; a non-validation fault (endpoint
exception) on the first attempt ends the loop at once with the fallback
carrying the error message; a validation fault followed by a
non-validation fault ends with that fallback after both calls;
exhausting both attempts on validation faults returns the deterministic
fallback with no error message; and every fallback record has
`score = 50` and exactly the three manual-review tags. The scorer never
raises to its caller: `analyzeCvWithOpenai` is a total function into
`AnalyzeTrace`. -/
theorem c2_bounded_retry_and_fallback (o : Nat → AttemptOutcome) (fn : String) :
    (analyzeCvWithOpenai o fn).calls ≤ 2 ∧
    (analyzeCvWithOpenai o fn).sleeps ≤ 1 ∧
    (∀ m, o 0 = .netErr m →
      analyzeCvWithOpenai o fn = ⟨createFallbackResponse fn (some m), 1, 0⟩) ∧
    (∀ m, validationFault (o 0) → o 1 = .netErr m →
      analyzeCvWithOpenai o fn = ⟨createFallbackResponse fn (some m), 2, 1⟩) ∧
    (validationFault (o 0) → validationFault (o 1) →
      analyzeCvWithOpenai o fn = ⟨createFallbackResponse fn none, 2, 1⟩) ∧
    (∀ e, (createFallbackResponse fn e).score = 50 ∧
      (createFallbackResponse fn e).tags =
        [.str "manual_review_needed", .str "analysis_incomplete",
          .str "requires_human_assessment"]) := by
  have hA : analyzeCvWithOpenai o fn = analyzeSteps o fn [0, 1] := rfl
  have hbound : (analyzeSteps o fn [0, 1]).calls ≤ 2 ∧
      (analyzeSteps o fn [0, 1]).sleeps ≤ 1 := by
    cases h0 : o 0 with
    | netErr m => simp [analyzeSteps, h0]
    | reply c =>
      cases hv : attemptResult c with
      | ok r =>
        cases hj : joinTags (r.tags.take 3) with
        | some ts => simp [analyzeSteps, h0, hv, hj]
        | none => simp [analyzeSteps, h0, hv, hj]
      | attrFault => simp [analyzeSteps, h0, hv]
      | valueFault =>
        cases h1 : o 1 with
        | netErr m => simp [analyzeSteps, h0, hv, h1]
        | reply c1 =>
          cases hv1 : attemptResult c1 with
          | ok r =>
            cases hj : joinTags (r.tags.take 3) with
            | some ts => simp [analyzeSteps, h0, hv, h1, hv1, hj]
            | none => simp [analyzeSteps, h0, hv, h1, hv1, hj]
          | attrFault => simp [analyzeSteps, h0, hv, h1, hv1]
          | valueFault => simp [analyzeSteps, h0, hv, h1, hv1]
  refine ⟨hA ▸ hbound.1, hA ▸ hbound.2, ?_, ?_, ?_, ?_⟩
  · intro m h0
    rw [hA]
    simp [analyzeSteps, h0]
  · intro m hf0 h1
    rw [hA]
    cases h0 : o 0 with
    | netErr m0 => rw [h0] at hf0; exact absurd hf0 (by simp [validationFault])
    | reply c =>
      rw [h0] at hf0
      have hv : attemptResult c = .valueFault := hf0
      simp [analyzeSteps, h0, hv, h1]
  · intro hf0 hf1
    rw [hA]
    cases h0 : o 0 with
    | netErr m0 => rw [h0] at hf0; exact absurd hf0 (by simp [validationFault])
    | reply c =>
      rw [h0] at hf0
      have hv : attemptResult c = .valueFault := hf0
      cases h1 : o 1 with
      | netErr m1 => rw [h1] at hf1; exact absurd hf1 (by simp [validationFault])
      | reply c1 =>
        rw [h1] at hf1
        have hv1 : attemptResult c1 = .valueFault := hf1
        simp [analyzeSteps, h0, hv, h1, hv1]
  · intro e
    cases e with
    | none => exact ⟨rfl, rfl⟩
    | some m => exact ⟨rfl, rfl⟩

/-- C2 (witness): a malformed reply on the first attempt triggers one
retry with a sleep; the endpoint exception on the second attempt ends
the run with the fallback record carrying that message after exactly two
calls. -/
theorem c2_bounded_retry_and_fallback_witness :
    analyzeCvWithOpenai
        (fun i => if i = 0 then .reply "nothing useful" else .netErr "connection reset")
        "cand.pdf" =
      ⟨createFallbackResponse "cand.pdf" (some "connection reset"), 2, 1⟩ :=
  (c2_bounded_retry_and_fallback
      (fun i => if i = 0 then .reply "nothing useful" else .netErr "connection reset")
      "cand.pdf").2.2.2.1 "connection reset" rfl rfl

theorem validateFields_sound {fields : List (String × Json)} {r : AnalysisResult}
    (h : validateFields fields = some r) :
    1 ≤ r.score ∧ r.score ≤ 100 ∧ 400 ≤ (pyStrip r.summary).length ∧
      3 ≤ r.tags.length := by
  unfold validateFields at h
  split at h
  case _ n heq =>
    split_ifs at h with h1
    split at h
    case _ s heq2 =>
      split_ifs at h with h2
      split at h
      case _ ts heq3 =>
        split_ifs at h with h3
        cases h
        exact ⟨h1.1, h1.2, h2, h3⟩
      case _ => cases h
    case _ => cases h
  case _ => cases h

theorem validateJsonResponse_ok_sound {text : String} {r : AnalysisResult}
    (h : validateJsonResponse text = .ok r) :
    1 ≤ r.score ∧ r.score ≤ 100 ∧ 400 ≤ (pyStrip r.summary).length ∧
      3 ≤ r.tags.length := by
  unfold validateJsonResponse at h
  split at h
  · cases h
  · split at h
    · cases h
    · split at h
      · cases h
        exact validateFields_sound (by assumption)
      · cases h
    · cases h

set_option maxRecDepth 10000 in
/-- C3: the field validator accepts a parsed object exactly when `score`
is an integer with `1 ≤ score ≤ 100`, `summary` is a string whose
stripped length is at least 400, and `tags` is a list of at least 3
elements; in particular `score = 0` and `score = 101` are rejected while
`1` and `100` are accepted, a 399-character summary is rejected while
400 characters exactly are accepted, and two tags are rejected. -/
theorem c3_validator_accepts_iff (fields : List (String × Json)) :
    ((validateFields fields).isSome = true ↔
      (∃ n s ts, lookupLast fields "score" = some (.int n) ∧ 1 ≤ n ∧ n ≤ 100 ∧
        lookupLast fields "summary" = some (.str s) ∧ 400 ≤ (pyStrip s).length ∧
        lookupLast fields "tags" = some (.arr ts) ∧ 3 ≤ ts.length)) ∧
    validateFields [("score", .int 0),
      ("summary", .str (String.mk (List.replicate 400 'a'))),
      ("tags", .arr [.str "x", .str "y", .str "z"])] = none ∧
    validateFields [("score", .int 101),
      ("summary", .str (String.mk (List.replicate 400 'a'))),
      ("tags", .arr [.str "x", .str "y", .str "z"])] = none ∧
    (validateFields [("score", .int 1),
      ("summary", .str (String.mk (List.replicate 400 'a'))),
      ("tags", .arr [.str "x", .str "y", .str "z"])]).isSome = true ∧
    (validateFields [("score", .int 100),
      ("summary", .str (String.mk (List.replicate 400 'a'))),
      ("tags", .arr [.str "x", .str "y", .str "z"])]).isSome = true ∧
    validateFields [("score", .int 60),
      ("summary", .str (String.mk (List.replicate 399 'a'))),
      ("tags", .arr [.str "x", .str "y", .str "z"])] = none ∧
    validateFields [("score", .int 60),
      ("summary", .str (String.mk (List.replicate 400 'a'))),
      ("tags", .arr [.str "x", .str "y"])] = none := by
  refine ⟨⟨?_, ?_⟩, rfl, rfl, rfl, rfl, rfl, rfl⟩
  · intro h
    unfold validateFields at h
    split at h
    case _ n heq =>
      split_ifs at h with h1
      · split at h
        case _ s heq2 =>
          split_ifs at h with h2
          · split at h
            case _ ts heq3 =>
              split_ifs at h with h3
              · exact ⟨n, s, ts, heq, h1.1, h1.2, heq2, h2, heq3, h3⟩
              · simp at h
            case _ => simp at h
          · simp at h
        case _ => simp at h
      · simp at h
    case _ => simp at h
  · rintro ⟨n, s, ts, h1, h2, h3, h4, h5, h6, h7⟩
    simp [validateFields, h1, h4, h6, h2, h3, h5, h7]

set_option maxRecDepth 10000 in
/-- C3 (witness): a concrete in-range reply object is accepted, obtained
through the acceptance direction of the validator characterization. -/
theorem c3_validator_accepts_iff_witness :
    (validateFields [("score", .int 55),
      ("summary", .str (String.mk (List.replicate 450 'b'))),
      ("tags", .arr [.str "x", .str "y", .str "z", .str "w"])]).isSome = true := by
  have h := c3_validator_accepts_iff [("score", .int 55),
    ("summary", .str (String.mk (List.replicate 450 'b'))),
    ("tags", .arr [.str "x", .str "y", .str "z", .str "w"])]
  exact h.1.mpr ⟨55, String.mk (List.replicate 450 'b'),
    [.str "x", .str "y", .str "z", .str "w"],
    rfl, by decide, by decide, rfl, by decide, rfl, by decide⟩

set_option maxRecDepth 10000 in
/-- C4 (counterexample): the scorer itself returns an `AnalysisResult`
violating the claimed invariant: with every attempt returning an empty
reply, `analyze_cv_with_openai` returns the fallback for `cv.pdf`, whose
summary is only 368 characters long — the fallback template plus a short
filename stays below the 400-character bound the claim asserts for every
returned result. -/
theorem c4_fallback_summary_below_400_cex :
    (analyzeCvWithOpenai (fun _ => .reply "") "cv.pdf").result =
      createFallbackResponse "cv.pdf" none ∧
    (createFallbackResponse "cv.pdf" none).summary.length = 368 ∧
    ¬ 400 ≤ (createFallbackResponse "cv.pdf" none).summary.length := by
  refine ⟨rfl, rfl, by decide⟩

/-- C4 (amended): every validated reply satisfies the full invariant
(`1 ≤ score ≤ 100`, `400 ≤ len(summary)`, `3 ≤ len(tags)`); the fallback
always satisfies the score and tag bounds, but its summary length is
exactly `362 + len(filename)` with no error message (or an empty one)
and `371 + len(filename) + len(error)` otherwise, so it reaches 400
characters only when the filename and error text are long enough. -/
theorem c4_result_invariant_amended :
    (∀ text r, validateJsonResponse text = .ok r →
      1 ≤ r.score ∧ r.score ≤ 100 ∧ 400 ≤ r.summary.length ∧ 3 ≤ r.tags.length) ∧
    (∀ fn e, (createFallbackResponse fn e).score = 50 ∧
      1 ≤ (createFallbackResponse fn e).score ∧
      (createFallbackResponse fn e).score ≤ 100 ∧
      (createFallbackResponse fn e).tags.length = 3) ∧
    (∀ fn, (createFallbackResponse fn none).summary.length = 362 + fn.length) ∧
    (∀ fn e, e ≠ "" →
      (createFallbackResponse fn (some e)).summary.length =
        371 + fn.length + e.length) ∧
    (∀ fn, (createFallbackResponse fn (some "")).summary.length = 362 + fn.length) := by
  have l1 : ("Analysis of " : String).length = 12 := rfl
  have l2 : (" could not be completed automatically. " : String).length = 39 := rfl
  have l3 : ("Manual review recommended to assess candidate\x27s qualifications, experience, and fit for the role. " : String).length = 98 := rfl
  have l4 : ("Please review the CV directly to evaluate technical skills, work history, education, and overall presentation. " : String).length = 111 := rfl
  have l5 : ("Consider scheduling an interview if the candidate meets basic requirements based on manual assessment." : String).length = 102 := rfl
  have l6 : ("Error: " : String).length = 7 := rfl
  have l7 : (". " : String).length = 2 := rfl
  have l0 : ("" : String).length = 0 := rfl
  refine ⟨?_, ?_, ?_, ?_, ?_⟩
  · intro text r h
    obtain ⟨h1, h2, h3, h4⟩ := validateJsonResponse_ok_sound h
    exact ⟨h1, h2, le_trans h3 (pyStrip_length_le r.summary), h4⟩
  · intro fn e
    refine ⟨rfl, by norm_num [createFallbackResponse], by norm_num [createFallbackResponse], rfl⟩
  · intro fn
    simp [createFallbackResponse, String.length_append, l1, l2, l3, l4, l5, l0]
    omega
  · intro fn e he
    simp [createFallbackResponse, String.length_append, he, l1, l2, l3, l4, l5,
      l6, l7]
    omega
  · intro fn
    simp [createFallbackResponse, String.length_append, l1, l2, l3, l4, l5, l0]
    omega

/-- C4 (witness for the amended theorem): the fallback for a 44-character
filename with no error message has summary length 406, which does meet
the 400 bound, while the score and tag bounds always hold. -/
theorem c4_result_invariant_amended_witness :
    (createFallbackResponse "a-very-long-resume-file-name-for-candidate.pdf" none).summary.length
        = 362 + 46 ∧
    1 ≤ (createFallbackResponse "a-very-long-resume-file-name-for-candidate.pdf" none).score ∧
    (createFallbackResponse "a-very-long-resume-file-name-for-candidate.pdf" none).tags.length = 3 := by
  have h := c4_result_invariant_amended
  have hlen := h.2.2.1 "a-very-long-resume-file-name-for-candidate.pdf"
  have hsc := h.2.1 "a-very-long-resume-file-name-for-candidate.pdf" none
  exact ⟨by rw [hlen]; rfl, hsc.2.1, hsc.2.2.2⟩

/-- C5 (counterexample): the claim quantifies over every surrounding
prose, but trailing prose containing a closing brace changes the
extracted substring: for the well-formed object consisting of an empty
brace pair, appending a lone closing brace makes extraction span both
braces and the parse fail, while the bare object parses to the empty
JSON object. -/
theorem c5_trailing_brace_breaks_parse_cex :
    parseReply ("\x7b\x7d" ++ "\x7d") = none ∧
    parseReply "\x7b\x7d" = some (.obj []) ∧
    parseReply ("\x7b\x7d" ++ "\x7d") ≠ parseReply "\x7b\x7d" := by
  refine ⟨rfl, rfl, ?_⟩
  intro h
  rw [show parseReply ("\x7b\x7d" ++ "\x7d") = none from rfl,
    show parseReply "\x7b\x7d" = some (.obj []) from rfl] at h
  cases h

/-- C5 (amended): the prose-tolerance equation holds whenever the
leading prose contains no opening brace and the trailing prose contains
no closing brace (the markdown fences the spec has in mind satisfy
this): extraction, and hence the whole extract-then-parse stage, gives
exactly the same result as on the bare body. -/
theorem c5_prose_tolerance_amended (pre j post : String)
    (hpre : lbrace ∉ pre.data) (hpost : rbrace ∉ post.data)
    (hjl : lbrace ∈ j.data) (hjr : rbrace ∈ j.data) :
    extractJson (pre ++ j ++ post) = extractJson j ∧
    parseReply (pre ++ j ++ post) = parseReply j := by
  have h := extractJson_embed pre j post hpre hpost hjl hjr
  exact ⟨h, by rw [parseReply, parseReply, h]⟩

/-- C5 (witness for the amended theorem): a reply wrapping the object in
prose and a markdown fence parses identically to the bare object. -/
theorem c5_prose_tolerance_amended_witness :
    parseReply ("Here is my analysis:\x0a" ++ "\x7b\"score\": 77\x7d" ++
        "\x0aHope this helps!") =
      parseReply "\x7b\"score\": 77\x7d" :=
  (c5_prose_tolerance_amended "Here is my analysis:\x0a" "\x7b\"score\": 77\x7d"
    "\x0aHope this helps!" (by decide) (by decide) (by decide) (by decide)).2

/-- C8: the persisted report ordering. The aggregation is exactly the
stable descending sort of the success records followed by the error
records in their original order: the sorted prefix is pairwise
score-descending, is a permutation of the success records, and
preserves the original relative order of equal-score records; the CSV
grid is the fixed header followed by one row per record with the fixed
column order; and the concrete scores [90, 55, 72] plus one failure
persist as [90, 72, 55, failure]. -/
theorem c8_report_ordering (results : List ResultRecord) :
    aggregateResults results =
      sortByScoreDesc (results.filter (fun r => r.status == "success")) ++
        results.filter (fun r => r.status == "error") ∧
    (sortByScoreDesc (results.filter (fun r => r.status == "success"))).Pairwise
      (fun a b => b.score ≤ a.score) ∧
    (sortByScoreDesc (results.filter (fun r => r.status == "success"))).Perm
      (results.filter (fun r => r.status == "success")) ∧
    (∀ s : Int,
      (sortByScoreDesc (results.filter (fun r => r.status == "success"))).filter
          (fun r => r.score == s) =
        (results.filter (fun r => r.status == "success")).filter
          (fun r => r.score == s)) ∧
    saveToCsv (aggregateResults results) =
      csvFieldnames :: (aggregateResults results).map csvRow ∧
    csvFieldnames = ["filename", "score", "summary", "tags", "status"] ∧
    (∀ r, csvRow r = [r.filename, toString r.score, r.summary, r.tags, r.status]) ∧
    aggregateResults
        [⟨"a.pdf", 90, "sa", "ta", "success", some "f1"⟩,
         ⟨"b.pdf", 55, "sb", "tb", "success", some "f2"⟩,
         ⟨"c.pdf", 72, "sc", "tc", "success", some "f3"⟩,
         ⟨"d.pdf", 50, "sd", "td", "error", none⟩] =
      [⟨"a.pdf", 90, "sa", "ta", "success", some "f1"⟩,
       ⟨"c.pdf", 72, "sc", "tc", "success", some "f3"⟩,
       ⟨"b.pdf", 55, "sb", "tb", "success", some "f2"⟩,
       ⟨"d.pdf", 50, "sd", "td", "error", none⟩] :=
  ⟨rfl, sortByScoreDesc_pairwise _, sortByScoreDesc_perm _,
    fun s => filter_sortByScoreDesc _ s, rfl, rfl, fun _ => rfl, rfl⟩
